import Mathlib

/-!
Shallow embedding of the core of `src/main.py` (PORTES_2025 chatbot):
the dataset loader `load_dataset` and the query engine `consultar_portes`,
together with their helper `filtrar_coluna_texto`.

A pandas `DataFrame` is modelled as a list of upper-casable column names
plus a list of rows, each row a list of cells aligned with the columns.
Cells are either strings or integers (the dataset's textual fields and the
numeric TOTAL / ANO_EMISSAO / MES_MISSAO fields).
-/

/-- Python `str.upper()` on the dataset's (ASCII) texts: upper-case every
character. (`String.toUpper` of the standard library computes the same
function; this formulation reduces inside the kernel.) -/
def String.pyUpper (s : String) : String :=
  ⟨s.data.map Char.toUpper⟩

/-- Lexicographic order on character lists, by code point — the order in
which pandas sorts string group keys. -/
def charListLe : List Char → List Char → Bool
  | [], _ => true
  | _ :: _, [] => false
  | a :: as, b :: bs => if a = b then charListLe as bs else decide (a < b)

/-- A cell of the table: either a textual value or a numeric value. -/
inductive Cell where
  | str (s : String)
  | int (n : Int)
deriving DecidableEq, Repr

/-- Python `str(value)`, as applied by `astype(str)` to a cell. -/
def Cell.toStr : Cell → String
  | .str s => s
  | .int n => toString n

/-- Numeric reading of a cell; used for the TOTAL column, which the loader
guarantees to be numeric (`pd.to_numeric(...).fillna(0)`). A stray textual
cell reads as 0, matching the loader's coercion of unparseable values. -/
def Cell.toInt : Cell → Int
  | .str _ => 0
  | .int n => n

/-- Ordering used by pandas `groupby(sort=True)` on homogeneous key columns:
numeric keys by value, textual keys lexicographically. -/
def Cell.le (a b : Cell) : Bool :=
  match a, b with
  | .int n, .int m => n ≤ m
  | .str s, .str t => charListLe s.data t.data
  | .int _, .str _ => true
  | .str _, .int _ => false

/-- The in-memory table: column names plus rows of cells. -/
structure Table where
  cols : List String
  rows : List (List Cell)
deriving DecidableEq, Repr

/-- `frame[coluna]` for one row: the cell in the position of `coluna`
among the column names (only meaningful when the column exists). -/
def getCell (cols : List String) (row : List Cell) (c : String) : Cell :=
  row.getD (cols.indexOf c) (Cell.str "")

/-! ### Model of `Series.str.contains` (Python `re.search`)

pandas `serie.str.contains(pat, na=False)` interprets `pat` as a regular
expression (`regex=True` is the default) and tests `re.search(pat, s)`.
We model the fragment of Python regular expressions in which every pattern
character is either a literal or the metacharacter `.` (match any one
character); the theorems below invoke the model only on patterns inside
this fragment. -/

/-- Does the pattern match some prefix of the text? A `.` in the pattern
matches any single character; every other character matches literally. -/
def patMatchesPrefix : List Char → List Char → Bool
  | [], _ => true
  | _ :: _, [] => false
  | p :: ps, c :: cs => (p = '.' || p = c) && patMatchesPrefix ps cs

/-- `re.search` on character lists: does the pattern match starting at some
position of the text? -/
def reSearchList (pat : List Char) : List Char → Bool
  | [] => patMatchesPrefix pat []
  | c :: cs => patMatchesPrefix pat (c :: cs) || reSearchList pat cs

/-- `re.search(pat, s) is not None`, for patterns in the literal-and-dot
fragment. -/
def reSearch (pat s : String) : Bool :=
  reSearchList pat.toList s.toList

/-- Python's regex metacharacters: a pattern free of all of them is matched
purely literally by `re.search`. -/
def regexMeta : List Char :=
  ['.', '^', '$', '*', '+', '?', '{', '}', '[', ']', '\\', '|', '(', ')']

/-- `filtrar_coluna_texto` from `consultar_portes` (src/main.py:84-89):
upper-case the column name; if it is not a column of the frame return the
frame unchanged; otherwise keep the rows whose cell in that column, read as
an upper-cased string, matches the upper-cased value as a regular
expression (`serie.str.contains(valor.upper(), na=False)`). -/
def filtrar_coluna_texto (frame : Table) (coluna valor : String) : Table :=
  let coluna := coluna.pyUpper
  if coluna ∈ frame.cols then
    { frame with
      rows := frame.rows.filter fun row =>
        reSearch valor.pyUpper ((getCell frame.cols row coluna).toStr.pyUpper) }
  else
    frame

/-! ### The query engine `consultar_portes` (src/main.py:39-176) -/

/-- The optional parameters of `consultar_portes`, with the source's
defaults (`top_n: Optional[int] = 5`, everything else `None`). -/
structure Params where
  uf : Option String := none
  municipio : Option String := none
  sexo : Option String := none
  especie_arma : Option String := none
  marca_arma : Option String := none
  calibre_arma : Option String := none
  status : Option String := none
  tipo : Option String := none
  abrangencia : Option String := none
  ano_emissao : Option Int := none
  mes_missao : Option Int := none
  agrupar_por : Option String := none
  top_n : Option Int := some 5
deriving DecidableEq, Repr

/-- One `if crit: filtro = filtrar_coluna_texto(filtro, COL, crit)` step.
Python truthiness: `None` and the empty string are falsy, so the filter is
skipped for both. -/
def applyOptText (frame : Table) (coluna : String) (valor : Option String) : Table :=
  match valor with
  | none => frame
  | some v => if v = "" then frame else filtrar_coluna_texto frame coluna v

/-- Exact-equality filtering on a numeric column
(`filtro[filtro[coluna] == int(valor)]`). -/
def filtrar_coluna_eq (frame : Table) (coluna : String) (valor : Int) : Table :=
  { frame with
    rows := frame.rows.filter fun row => getCell frame.cols row coluna = Cell.int valor }

/-- One `if crit is not None and COL in filtro.columns: ...` step for the
year/month criteria (src/main.py:118-122). Note `is not None`, not
truthiness: the value 0 still filters. -/
def applyOptEq (frame : Table) (coluna : String) (valor : Option Int) : Table :=
  match valor with
  | none => frame
  | some v => if coluna ∈ frame.cols then filtrar_coluna_eq frame coluna v else frame

/-- The working set after applying all supplied criteria, in the source's
order (src/main.py:82-122). -/
def filteredTable (df : Table) (p : Params) : Table :=
  let f := df
  let f := applyOptText f "UF" p.uf
  let f := applyOptText f "MUNICIPIO" p.municipio
  let f := applyOptText f "SEXO" p.sexo
  let f := applyOptText f "ESPECIE_ARMA" p.especie_arma
  let f := applyOptText f "MARCA_ARMA" p.marca_arma
  let f := applyOptText f "CALIBRE_ARMA" p.calibre_arma
  let f := applyOptText f "STATUS" p.status
  let f := applyOptText f "TIPO" p.tipo
  let f := applyOptText f "ABRANGENCIA" p.abrangencia
  let f := applyOptEq f "ANO_EMISSAO" p.ano_emissao
  let f := applyOptEq f "MES_MISSAO" p.mes_missao
  f

/-- `int(filtro["TOTAL"].sum())` when TOTAL exists, else `len(filtro)`
(src/main.py:127-130). -/
def grandTotal (t : Table) : Int :=
  if "TOTAL" ∈ t.cols then
    (t.rows.map fun row => (getCell t.cols row "TOTAL").toInt).sum
  else
    (t.rows.length : Int)

/-- Sort the (group key, aggregate) pairs by descending aggregate, as
`sort_values("TOTAL", ascending=False)` does. The source's tie order is
unspecified (quicksort); we fix a deterministic stable sort. -/
def descR (a b : Cell × Int) : Prop := b.2 ≤ a.2

instance : DecidableRel descR := fun a b => inferInstanceAs (Decidable (b.2 ≤ a.2))

instance : IsTotal (Cell × Int) descR := ⟨fun a b => le_total b.2 a.2⟩

instance : IsTrans (Cell × Int) descR := ⟨fun _ _ _ hab hbc => le_trans hbc hab⟩

def sortDescTotal (l : List (Cell × Int)) : List (Cell × Int) :=
  List.insertionSort descR l

/-- `groupby(col)` (src/main.py:146-159): the distinct key values of the
column, in pandas' default sorted key order, each paired with the sum of
TOTAL over its rows when TOTAL exists, else with its row count. -/
def groupAgg (t : Table) (col : String) : List (Cell × Int) :=
  let keys :=
    List.insertionSort (fun a b => Cell.le a b = true)
      ((t.rows.map fun r => getCell t.cols r col).dedup)
  if "TOTAL" ∈ t.cols then
    keys.map fun k =>
      (k, ((t.rows.filter fun r => getCell t.cols r col = k).map
            fun r => (getCell t.cols r "TOTAL").toInt).sum)
  else
    keys.map fun k =>
      (k, ((t.rows.filter fun r => getCell t.cols r col = k).length : Int))

/-- `DataFrame.head(n)` of pandas on the ranking table: the first `n` rows
when `n ≥ 0`, and all rows but the last `|n|` when `n < 0`. -/
def pdHead (n : Int) (l : List (Cell × Int)) : List (Cell × Int) :=
  if 0 ≤ n then l.take n.toNat else l.take (l.length - (-n).toNat)

/-- The ranking table: group, aggregate, sort descending, and apply
`if top_n is not None: tabela = tabela.head(int(top_n))`
(src/main.py:146-162). -/
def rankingTable (t : Table) (col : String) (top_n : Option Int) : List (Cell × Int) :=
  let tabela := sortDescTotal (groupAgg t col)
  match top_n with
  | none => tabela
  | some n => pdHead n tabela

/-- The grand-total sentence shared by every non-empty outcome. -/
def resumoTotal (total : Int) : String :=
  "Foram encontrados " ++ toString total ++ " portes de arma com os filtros informados."

/-- The ungrouped summary (src/main.py:132-136). -/
def resumoSemAgrupamento (total : Int) (registros : Nat) : String :=
  resumoTotal total ++ "\n(Registros: " ++ toString registros ++ ")"

/-- Ranking rendering (src/main.py:164-176). -/
def renderRanking (col : String) (tabela : List (Cell × Int)) (total : Int) : String :=
  let linhas := tabela.map fun kv => "- " ++ kv.1.toStr ++ ": " ++ toString kv.2 ++ " portes"
  resumoTotal total ++ "\nRanking por " ++ col ++ " (top " ++ toString tabela.length ++ "):\n"
    ++ String.intercalate "\n" linhas

/-- The unknown-grouping-column text (src/main.py:139-144); note it embeds
the original `agrupar_por`, not its upper-cased form. -/
def colunaInexistente (agrupar_por : String) (cols : List String) : String :=
  "A coluna '" ++ agrupar_por ++ "' não existe no dataset.\nColunas disponíveis: "
    ++ String.intercalate ", " cols

/-- `consultar_portes` (src/main.py:39-176), with the cached dataset passed
explicitly. Mirrors the source's control flow: filter; empty check; grand
total; `if not agrupar_por` (truthiness: `None` and `""` both fall to the
summary); unknown grouping column check; ranking. -/
def consultar_portes (df : Table) (p : Params) : String :=
  let filtro := filteredTable df p
  if filtro.rows = [] then
    "Nenhum registro encontrado com esses filtros."
  else
    let total_portes := grandTotal filtro
    match p.agrupar_por with
    | none => resumoSemAgrupamento total_portes filtro.rows.length
    | some g =>
      if g = "" then resumoSemAgrupamento total_portes filtro.rows.length
      else
        let col := g.pyUpper
        if col ∈ filtro.cols then
          renderRanking col (rankingTable filtro col p.top_n) total_portes
        else
          colunaInexistente g filtro.cols

/-! ### The dataset loader `load_dataset` (src/main.py:19-35) -/

/-- In-place update of one position of a row. -/
def modifyIdx (n : Nat) (f : Cell → Cell) : List Cell → List Cell
  | [] => []
  | c :: cs =>
    match n with
    | 0 => f c :: cs
    | m + 1 => c :: modifyIdx m f cs

/-- `pd.to_numeric(x, errors="coerce").fillna(0)` on one cell: numeric
cells stay, parseable strings become their number, anything else becomes 0. -/
def coerceNumeric (c : Cell) : Cell :=
  match c with
  | .int n => .int n
  | .str s =>
    match s.trim.toInt? with
    | some n => .int n
    | none => .int 0

/-- `df.columns = [c.strip().upper() for c in df.columns]` (src/main.py:28). -/
def normalizeCols (t : Table) : Table :=
  { t with cols := t.cols.map fun c => c.trim.pyUpper }

/-- The TOTAL coercion (src/main.py:30-31). -/
def coerceTotal (t : Table) : Table :=
  if "TOTAL" ∈ t.cols then
    { t with rows := t.rows.map (modifyIdx (t.cols.indexOf "TOTAL") coerceNumeric) }
  else
    t

/-- The treatment applied to a freshly read CSV. -/
def processLoad (raw : Table) : Table :=
  coerceTotal (normalizeCols raw)

/-- `load_dataset` (src/main.py:19-35) as a state transition on the
process-wide cache `PORTES_DF : Option Table`. `read_csv` stands for the
file system read `pd.read_csv(path, ...)`; the function returns the table
together with the new cache state. -/
def load_dataset (read_csv : String → Table) (cache : Option Table) (path : String) :
    Table × Option Table :=
  match cache with
  | some df => (df, some df)
  | none =>
    let df := processLoad (read_csv path)
    (df, some df)

/-! ### The filter stage as a list of independent criteria

Each textual criterion block and each year/month block of
`consultar_portes` (src/main.py:91-122) contributes at most one filtering
step; `Crit` records one such step, and `critsOf` lists the steps a given
parameter set actually performs, in the source's order. -/

/-- One filtering step of the filter stage. -/
inductive Crit where
  | text (coluna valor : String)
  | eqInt (coluna : String) (valor : Int)
deriving DecidableEq, Repr

/-- The effect of one step on the working set, exactly as in the source:
a textual step is `filtrar_coluna_texto`, a numeric step filters by
equality when the column exists and is skipped otherwise. -/
def Crit.apply (frame : Table) : Crit → Table
  | .text c v => filtrar_coluna_texto frame c v
  | .eqInt c v => if c ∈ frame.cols then filtrar_coluna_eq frame c v else frame

/-- Apply a list of filtering steps left to right. -/
def applyCrits (frame : Table) (l : List Crit) : Table :=
  l.foldl Crit.apply frame

/-- The steps contributed by one `if crit:` textual block: none when the
value is `None` or the (falsy) empty string. -/
def optTextCrits (c : String) : Option String → List Crit
  | none => []
  | some v => if v = "" then [] else [Crit.text c v]

/-- The steps contributed by one `if crit is not None:` numeric block. -/
def optEqCrits (c : String) : Option Int → List Crit
  | none => []
  | some v => [Crit.eqInt c v]

/-- All filtering steps performed for a parameter set, in source order. -/
def critsOf (p : Params) : List Crit :=
  optTextCrits "UF" p.uf ++ optTextCrits "MUNICIPIO" p.municipio
    ++ optTextCrits "SEXO" p.sexo ++ optTextCrits "ESPECIE_ARMA" p.especie_arma
    ++ optTextCrits "MARCA_ARMA" p.marca_arma ++ optTextCrits "CALIBRE_ARMA" p.calibre_arma
    ++ optTextCrits "STATUS" p.status ++ optTextCrits "TIPO" p.tipo
    ++ optTextCrits "ABRANGENCIA" p.abrangencia ++ optEqCrits "ANO_EMISSAO" p.ano_emissao
    ++ optEqCrits "MES_MISSAO" p.mes_missao

/-- Whether a step actually filters, given the column names. -/
def critTest (cols : List String) : Crit → Bool
  | .text c _ => decide (c.pyUpper ∈ cols)
  | .eqInt c _ => decide (c ∈ cols)

/-- The row predicate of a step, given the column names. -/
def critPred (cols : List String) : Crit → (List Cell → Bool)
  | .text c v => fun row => reSearch v.pyUpper ((getCell cols row c.pyUpper).toStr.pyUpper)
  | .eqInt c v => fun row => decide (getCell cols row c = Cell.int v)

/-! ### Concrete tables used in the witnesses and counterexamples -/

/-- The spec's concrete three-row table:
{UF=BA, TOTAL=10}, {UF=BA, TOTAL=5}, {UF=SP, TOTAL=7}. -/
def tabelaExemplo : Table :=
  ⟨["UF", "TOTAL"],
   [[Cell.str "BA", Cell.int 10], [Cell.str "BA", Cell.int 5], [Cell.str "SP", Cell.int 7]]⟩

/-- A one-row table whose caliber does not contain ".380" literally but is
matched by the pattern ".380" under regex semantics. -/
def tabelaX380 : Table :=
  ⟨["CALIBRE_ARMA"], [[Cell.str "X380 ACP"]]⟩

/-- A one-row table with the spec's ".380 ACP" caliber value. -/
def tabela380 : Table :=
  ⟨["CALIBRE_ARMA"], [[Cell.str ".380 ACP"], [Cell.str "9MM"]]⟩

/-! ### Helper lemmas -/

theorem patMatchesPrefix_iff (pat : List Char) (hd : '.' ∉ pat) :
    ∀ text : List Char, patMatchesPrefix pat text = true ↔ pat <+: text := by
  induction pat with
  | nil =>
    intro text
    simp [patMatchesPrefix, List.nil_prefix]
  | cons p ps ih =>
    intro text
    have hp : p ≠ '.' := fun h => hd (h ▸ List.mem_cons_self p ps)
    have hps : '.' ∉ ps := fun h => hd (List.mem_cons_of_mem p h)
    cases text with
    | nil =>
      simp [patMatchesPrefix]
    | cons c cs =>
      rw [List.cons_prefix_cons]
      simp only [patMatchesPrefix, Bool.and_eq_true, Bool.or_eq_true, decide_eq_true_eq]
      rw [ih hps cs]
      constructor
      · rintro ⟨hpc | hpc, h⟩
        · exact absurd hpc hp
        · exact ⟨hpc, h⟩
      · rintro ⟨hpc, h⟩
        exact ⟨Or.inr hpc, h⟩

theorem reSearchList_iff (pat : List Char) (hd : '.' ∉ pat) :
    ∀ text : List Char, reSearchList pat text = true ↔ pat <:+: text := by
  intro text
  induction text with
  | nil =>
    rw [List.infix_nil]
    simp only [reSearchList, patMatchesPrefix_iff pat hd]
    exact ⟨fun h => List.eq_nil_of_prefix_nil h, fun h => h ▸ List.prefix_rfl⟩
  | cons c cs ih =>
    simp only [reSearchList, Bool.or_eq_true, patMatchesPrefix_iff pat hd, ih,
      List.infix_cons_iff]

/-- For a pattern containing no `.`, the modelled `re.search` is exactly
literal substring containment. -/
theorem reSearch_eq_infix (pat s : String) (hd : '.' ∉ pat.toList) :
    reSearch pat s = true ↔ pat.toList <:+: s.toList :=
  reSearchList_iff pat.toList hd s.toList

theorem filtrar_coluna_texto_cols (f : Table) (c v : String) :
    (filtrar_coluna_texto f c v).cols = f.cols := by
  simp only [filtrar_coluna_texto]
  split <;> rfl

theorem applyOptText_cols (f : Table) (c : String) (v : Option String) :
    (applyOptText f c v).cols = f.cols := by
  cases v with
  | none => rfl
  | some s =>
    show (if s = "" then f else filtrar_coluna_texto f c s).cols = f.cols
    split
    · rfl
    · exact filtrar_coluna_texto_cols f c s

theorem applyOptEq_cols (f : Table) (c : String) (v : Option Int) :
    (applyOptEq f c v).cols = f.cols := by
  cases v with
  | none => rfl
  | some n =>
    show (if c ∈ f.cols then filtrar_coluna_eq f c n else f).cols = f.cols
    split <;> rfl

theorem filteredTable_cols (df : Table) (p : Params) :
    (filteredTable df p).cols = df.cols := by
  simp [filteredTable, applyOptText_cols, applyOptEq_cols]

theorem Crit.apply_cols (f : Table) (c : Crit) : (Crit.apply f c).cols = f.cols := by
  cases c with
  | text col v => exact filtrar_coluna_texto_cols f col v
  | eqInt col v =>
    show (if col ∈ f.cols then filtrar_coluna_eq f col v else f).cols = f.cols
    split <;> rfl

theorem applyCrits_cols (l : List Crit) : ∀ f : Table, (applyCrits f l).cols = f.cols := by
  induction l with
  | nil => intro f; rfl
  | cons c cs ih =>
    intro f
    rw [show applyCrits f (c :: cs) = applyCrits (Crit.apply f c) cs from rfl, ih,
      Crit.apply_cols]

theorem Crit.apply_eq (f : Table) (c : Crit) :
    Crit.apply f c =
      ⟨f.cols, if critTest f.cols c then f.rows.filter (critPred f.cols c) else f.rows⟩ := by
  cases c with
  | text col v =>
    show filtrar_coluna_texto f col v = _
    simp only [filtrar_coluna_texto, critTest, critPred, decide_eq_true_eq]
    by_cases h : col.pyUpper ∈ f.cols
    · simp [h]
    · simp [h]
  | eqInt col v =>
    show (if col ∈ f.cols then filtrar_coluna_eq f col v else f) = _
    simp only [critTest, critPred, decide_eq_true_eq]
    by_cases h : col ∈ f.cols
    · simp [h, filtrar_coluna_eq]
    · simp [h]

theorem Crit.apply_comm (f : Table) (c₁ c₂ : Crit) :
    Crit.apply (Crit.apply f c₁) c₂ = Crit.apply (Crit.apply f c₂) c₁ := by
  rw [Crit.apply_eq f c₁, Crit.apply_eq f c₂, Crit.apply_eq, Crit.apply_eq]
  by_cases h1 : critTest f.cols c₁ = true <;> by_cases h2 : critTest f.cols c₂ = true <;>
    simp [h1, h2, Bool.and_comm]

theorem applyCrits_perm (l₁ l₂ : List Crit) (h : l₁.Perm l₂) :
    ∀ f : Table, applyCrits f l₁ = applyCrits f l₂ := by
  induction h with
  | nil => intro f; rfl
  | cons x _ ih => intro f; exact ih (Crit.apply f x)
  | swap x y l =>
    intro f
    show applyCrits (Crit.apply (Crit.apply f y) x) l
      = applyCrits (Crit.apply (Crit.apply f x) y) l
    rw [Crit.apply_comm]
  | trans _ _ ih₁ ih₂ => intro f; rw [ih₁ f, ih₂ f]

theorem applyCrits_append (f : Table) (l₁ l₂ : List Crit) :
    applyCrits f (l₁ ++ l₂) = applyCrits (applyCrits f l₁) l₂ := by
  simp [applyCrits]

theorem applyCrits_optTextCrits (f : Table) (c : String) (v : Option String) :
    applyCrits f (optTextCrits c v) = applyOptText f c v := by
  cases v with
  | none => rfl
  | some s =>
    by_cases h : s = "" <;> simp [optTextCrits, applyOptText, applyCrits, Crit.apply, h]

theorem applyCrits_optEqCrits (f : Table) (c : String) (v : Option Int) :
    applyCrits f (optEqCrits c v) = applyOptEq f c v := by
  cases v with
  | none => rfl
  | some n => rfl

theorem filteredTable_eq_applyCrits (df : Table) (p : Params) :
    filteredTable df p = applyCrits df (critsOf p) := by
  simp only [filteredTable, critsOf, applyCrits_append, applyCrits_optTextCrits,
    applyCrits_optEqCrits]

theorem consultar_eq_of_filtered_eq (df : Table) (p q : Params)
    (hf : filteredTable df p = filteredTable df q)
    (hg : p.agrupar_por = q.agrupar_por) (ht : p.top_n = q.top_n) :
    consultar_portes df p = consultar_portes df q := by
  simp only [consultar_portes, hf, hg, ht]

theorem filtrar_coluna_texto_absent (f : Table) (c v : String) (h : c.pyUpper ∉ f.cols) :
    filtrar_coluna_texto f c v = f := by
  simp only [filtrar_coluna_texto]
  rw [if_neg h]

theorem applyCrits_optText_absent (f : Table) (c : String) (v : Option String)
    (h : c.pyUpper ∉ f.cols) : applyCrits f (optTextCrits c v) = f := by
  rw [applyCrits_optTextCrits]
  cases v with
  | none => rfl
  | some s =>
    show (if s = "" then f else filtrar_coluna_texto f c s) = f
    split
    · rfl
    · exact filtrar_coluna_texto_absent f c s h

/-! ### Claims -/

/-- Claim C1, counterexample: textual matching is not literal substring
containment. The filter value ".380" keeps the row whose caliber is
"X380 ACP" (the regex `.` matches `X`) although "X380 ACP" does not
contain ".380" as a literal substring, so "the query keeps exactly the
rows whose upper-cased string form contains the upper-cased criterion
value as a literal substring" is false. -/
theorem filtrar_regex_dot_counterexample :
    (filtrar_coluna_texto tabelaX380 "CALIBRE_ARMA" ".380").rows = [[Cell.str "X380 ACP"]]
    ∧ ¬ (".380".pyUpper.toList <:+: "X380 ACP".pyUpper.toList) := by
  constructor
  · rfl
  · decide

/-- Claim C1, amended: pandas interprets the criterion value as a regular
expression. For a criterion value whose upper-cased form is free of regex
metacharacters, the filter keeps exactly the rows whose upper-cased string
form of the (existing) column contains the upper-cased value as a literal
substring; values containing metacharacters match by regex semantics
instead (e.g. ".380" also matches "X380 ACP"). -/
theorem filtrar_substring_when_meta_free (frame : Table) (coluna valor : String)
    (hcol : coluna.pyUpper ∈ frame.cols)
    (hmeta : ∀ c ∈ valor.pyUpper.toList, c ∉ regexMeta) :
    (filtrar_coluna_texto frame coluna valor).rows =
      frame.rows.filter fun row =>
        decide (valor.pyUpper.toList <:+:
          ((getCell frame.cols row coluna.pyUpper).toStr.pyUpper).toList) := by
  simp only [filtrar_coluna_texto]
  rw [if_pos hcol]
  apply List.filter_congr
  intro row _
  have hd : '.' ∉ valor.pyUpper.toList := fun h => hmeta '.' h (by simp [regexMeta])
  have hiff := reSearch_eq_infix valor.pyUpper
    ((getCell frame.cols row coluna.pyUpper).toStr.pyUpper) hd
  rw [Bool.eq_iff_iff, decide_eq_true_eq]
  exact hiff

/-- Concrete instance of the amended C1: on a caliber column holding
".380 ACP" and "9MM", the metacharacter-free value "380" filters by
literal substring containment, and the spec's example value ".380" does
keep a ".380 ACP" row. -/
theorem filtrar_substring_when_meta_free_witness :
    "CALIBRE_ARMA".pyUpper ∈ tabela380.cols
    ∧ (∀ c ∈ "380".pyUpper.toList, c ∉ regexMeta)
    ∧ (filtrar_coluna_texto tabela380 "CALIBRE_ARMA" "380").rows =
        tabela380.rows.filter (fun row =>
          decide ("380".pyUpper.toList <:+:
            ((getCell tabela380.cols row "CALIBRE_ARMA".pyUpper).toStr.pyUpper).toList))
    ∧ (filtrar_coluna_texto ⟨["CALIBRE_ARMA"], [[Cell.str ".380 ACP"]]⟩
        "CALIBRE_ARMA" ".380").rows = [[Cell.str ".380 ACP"]] :=
  ⟨by decide, by decide,
    filtrar_substring_when_meta_free tabela380 "CALIBRE_ARMA" "380" (by decide) (by decide),
    by rfl⟩

/-- Claim C2, counterexample: when the filters empty the working set, the
unknown-grouping-column request is never reached — the query returns the
fixed no-records message, not the column listing. -/
theorem consultar_empty_before_unknown_column_counterexample :
    consultar_portes tabelaExemplo { uf := some "ZZ", agrupar_por := some "NOPE" }
      = "Nenhum registro encontrado com esses filtros."
    ∧ consultar_portes tabelaExemplo { uf := some "ZZ", agrupar_por := some "NOPE" }
      ≠ colunaInexistente "NOPE" tabelaExemplo.cols := by
  constructor
  · rfl
  · decide

/-- Claim C2, amended: whenever the working set is non-empty after
filtering and the requested (non-empty) grouping column does not exist in
it after upper-casing, the query returns the text naming the requested
column and listing all available columns (never a ranking); the working
set's columns are the full table columns. When the filters leave the
working set empty, the no-records message is returned instead. -/
theorem consultar_unknown_group_column (df : Table) (p : Params) (g : String)
    (hg : p.agrupar_por = some g) (hne : g ≠ "")
    (hrows : ¬ (filteredTable df p).rows = [])
    (hcol : g.pyUpper ∉ (filteredTable df p).cols) :
    consultar_portes df p = colunaInexistente g df.cols
    ∧ (filteredTable df p).cols = df.cols := by
  have hcols := filteredTable_cols df p
  refine ⟨?_, hcols⟩
  simp only [consultar_portes, hg, if_neg hrows, if_neg hne]
  rw [if_neg hcol, hcols]

/-- Concrete instance of the amended C2: the spec's scenario C, with a
"BA" filter left in place so the working set is non-empty. -/
theorem consultar_unknown_group_column_witness :
    ({ uf := some "BA", agrupar_por := some "NONEXISTENT" } : Params).agrupar_por
      = some "NONEXISTENT"
    ∧ "NONEXISTENT" ≠ ""
    ∧ ¬ (filteredTable tabelaExemplo
          { uf := some "BA", agrupar_por := some "NONEXISTENT" }).rows = []
    ∧ "NONEXISTENT".pyUpper ∉ (filteredTable tabelaExemplo
          { uf := some "BA", agrupar_por := some "NONEXISTENT" }).cols
    ∧ consultar_portes tabelaExemplo { uf := some "BA", agrupar_por := some "NONEXISTENT" }
        = colunaInexistente "NONEXISTENT" tabelaExemplo.cols :=
  ⟨rfl, by decide, by decide, by decide,
    (consultar_unknown_group_column tabelaExemplo
      { uf := some "BA", agrupar_por := some "NONEXISTENT" } "NONEXISTENT"
      rfl (by decide) (by decide) (by decide)).1⟩

/-- Claim C3, counterexample: `top_n = 0` does not return all groups; it
yields an empty ranking, unlike `top_n = None` which keeps both groups, so
the grouped query outputs differ. -/
theorem consultar_top_n_zero_counterexample :
    rankingTable tabelaExemplo "UF" (some 0) = []
    ∧ rankingTable tabelaExemplo "UF" none = [(Cell.str "BA", 15), (Cell.str "SP", 7)]
    ∧ consultar_portes tabelaExemplo { agrupar_por := some "UF", top_n := some 0 }
        ≠ consultar_portes tabelaExemplo { agrupar_por := some "UF", top_n := none } := by
  refine ⟨by rfl, by decide, by decide⟩

/-- Claim C3, amended: when `top_n` is `None` no truncation is applied and
all groups are ranked; `top_n = 0` yields an empty ranking; a negative
`top_n = n` yields all groups except the last `|n|` (pandas `head`
semantics). -/
theorem rankingTable_top_n_policy (t : Table) (col : String) (n : Int) (hn : n < 0) :
    rankingTable t col none = sortDescTotal (groupAgg t col)
    ∧ rankingTable t col (some 0) = []
    ∧ rankingTable t col (some n)
        = (sortDescTotal (groupAgg t col)).take
            ((sortDescTotal (groupAgg t col)).length - (-n).toNat) := by
  refine ⟨rfl, ?_, ?_⟩
  · simp [rankingTable, pdHead]
  · simp [rankingTable, pdHead, hn.not_le]

/-- Concrete instance of the amended C3 at `n = -1` on the spec's table. -/
theorem rankingTable_top_n_policy_witness :
    (-1 : Int) < 0
    ∧ rankingTable tabelaExemplo "UF" none = sortDescTotal (groupAgg tabelaExemplo "UF")
    ∧ rankingTable tabelaExemplo "UF" (some 0) = []
    ∧ rankingTable tabelaExemplo "UF" (some (-1))
        = (sortDescTotal (groupAgg tabelaExemplo "UF")).take
            ((sortDescTotal (groupAgg tabelaExemplo "UF")).length - ((-(-1) : Int)).toNat) := by
  have h := rankingTable_top_n_policy tabelaExemplo "UF" (-1) (by decide)
  exact ⟨by decide, h.1, h.2.1, h.2.2⟩

/-- Claim C4: for a non-empty working set and no grouping, the query
reports as grand total the sum of the TOTAL column over the working set
when that column exists and the row count otherwise, together with the
record count. -/
theorem consultar_sem_agrupamento_total (df : Table) (p : Params)
    (hrows : ¬ (filteredTable df p).rows = []) (hg : p.agrupar_por = none) :
    consultar_portes df p =
      resumoSemAgrupamento
        (if "TOTAL" ∈ (filteredTable df p).cols then
          ((filteredTable df p).rows.map fun r =>
            (getCell (filteredTable df p).cols r "TOTAL").toInt).sum
        else ((filteredTable df p).rows.length : Int))
        (filteredTable df p).rows.length := by
  simp only [consultar_portes, hg, if_neg hrows, grandTotal]

/-- The spec's concrete scenario A: on the three-row table, `uf = "BA"`
with no grouping reports grand total 15 over 2 records. -/
theorem consultar_sem_agrupamento_total_witness :
    ¬ (filteredTable tabelaExemplo { uf := some "BA" }).rows = []
    ∧ ({ uf := some "BA" } : Params).agrupar_por = none
    ∧ consultar_portes tabelaExemplo { uf := some "BA" }
        = "Foram encontrados 15 portes de arma com os filtros informados.\n(Registros: 2)" := by
  refine ⟨by decide, rfl, ?_⟩
  rw [consultar_sem_agrupamento_total tabelaExemplo { uf := some "BA" } (by decide) rfl]
  rfl

/-- Claim C5: whenever the criteria leave the working set empty, the query
returns the one fixed no-records message (the same string for every such
criteria combination), as a return value rather than an exception. -/
theorem consultar_empty_message (df : Table) (p : Params)
    (h : (filteredTable df p).rows = []) :
    consultar_portes df p = "Nenhum registro encontrado com esses filtros." := by
  simp [consultar_portes, h]

/-- The spec's concrete scenario D: `uf = "ZZ"` matches nothing and yields
the fixed empty-result message. -/
theorem consultar_empty_message_witness :
    (filteredTable tabelaExemplo { uf := some "ZZ" }).rows = []
    ∧ consultar_portes tabelaExemplo { uf := some "ZZ" }
        = "Nenhum registro encontrado com esses filtros." :=
  ⟨by decide, consultar_empty_message tabelaExemplo { uf := some "ZZ" } (by decide)⟩

/-- Claim C6: for a grouped query on an existing grouping column with the
default limit of 5 and a non-empty working set, the result is the rendering
of the ranking table, which has at most 5 lines and lists the aggregated
values in descending order. -/
theorem consultar_ranking_top5 (df : Table) (p : Params) (g : String)
    (hg : p.agrupar_por = some g) (hne : g ≠ "")
    (hcol : g.pyUpper ∈ (filteredTable df p).cols)
    (htop : p.top_n = some 5)
    (hrows : ¬ (filteredTable df p).rows = []) :
    consultar_portes df p
      = renderRanking g.pyUpper
          (rankingTable (filteredTable df p) g.pyUpper (some 5))
          (grandTotal (filteredTable df p))
    ∧ (rankingTable (filteredTable df p) g.pyUpper (some 5)).length ≤ 5
    ∧ (rankingTable (filteredTable df p) g.pyUpper (some 5)).Pairwise descR := by
  refine ⟨?_, ?_, ?_⟩
  · simp only [consultar_portes, hg, if_neg hrows, if_neg hne, if_pos hcol, htop]
  · have h := List.length_take_le ((5 : Int).toNat)
      (sortDescTotal (groupAgg (filteredTable df p) g.pyUpper))
    simp only [rankingTable, pdHead]
    rw [if_pos (by decide : (0 : Int) ≤ 5)]
    exact h
  · have hs : (sortDescTotal (groupAgg (filteredTable df p) g.pyUpper)).Pairwise descR :=
      List.sorted_insertionSort descR (groupAgg (filteredTable df p) g.pyUpper)
    have hsub : List.Sublist (rankingTable (filteredTable df p) g.pyUpper (some 5))
        (sortDescTotal (groupAgg (filteredTable df p) g.pyUpper)) := by
      simp only [rankingTable, pdHead]
      split
      · exact List.take_sublist _ _
      · exact List.take_sublist _ _
    exact hs.sublist hsub

/-- Concrete instance of C6: grouping the spec's table by UF with the
default limit. -/
theorem consultar_ranking_top5_witness :
    ({ agrupar_por := some "UF" } : Params).agrupar_por = some "UF"
    ∧ "UF" ≠ ""
    ∧ "UF".pyUpper ∈ (filteredTable tabelaExemplo { agrupar_por := some "UF" }).cols
    ∧ ({ agrupar_por := some "UF" } : Params).top_n = some 5
    ∧ ¬ (filteredTable tabelaExemplo { agrupar_por := some "UF" }).rows = []
    ∧ consultar_portes tabelaExemplo { agrupar_por := some "UF" }
        = renderRanking "UF".pyUpper
            (rankingTable (filteredTable tabelaExemplo { agrupar_por := some "UF" })
              "UF".pyUpper (some 5))
            (grandTotal (filteredTable tabelaExemplo { agrupar_por := some "UF" }))
    ∧ (rankingTable (filteredTable tabelaExemplo { agrupar_por := some "UF" })
        "UF".pyUpper (some 5)).length ≤ 5
    ∧ (rankingTable (filteredTable tabelaExemplo { agrupar_por := some "UF" })
        "UF".pyUpper (some 5)).Pairwise descR := by
  have h := consultar_ranking_top5 tabelaExemplo { agrupar_por := some "UF" } "UF"
    rfl (by decide) (by decide) rfl (by decide)
  exact ⟨rfl, by decide, by decide, rfl, by decide, h.1, h.2.1, h.2.2⟩

/-- Claim C8: the filter stage is order-independent. The working set of
`consultar_portes` equals the fold of the supplied criteria over the table,
and any permutation of those criteria produces the same working set. -/
theorem consultar_filter_order_independent (df : Table) (p : Params) (l : List Crit)
    (h : l.Perm (critsOf p)) :
    applyCrits df l = filteredTable df p :=
  (applyCrits_perm l (critsOf p) h df).trans (filteredTable_eq_applyCrits df p).symm

/-- Concrete instance of C8: applying the year criterion before the UF
criterion gives the same working set as the source's order. -/
theorem consultar_filter_order_independent_witness :
    ([Crit.eqInt "ANO_EMISSAO" 2025, Crit.text "UF" "BA"].Perm
      (critsOf { uf := some "BA", ano_emissao := some 2025 }))
    ∧ applyCrits tabelaExemplo [Crit.eqInt "ANO_EMISSAO" 2025, Crit.text "UF" "BA"]
        = filteredTable tabelaExemplo { uf := some "BA", ano_emissao := some 2025 } :=
  ⟨by decide,
    consultar_filter_order_independent tabelaExemplo
      { uf := some "BA", ano_emissao := some 2025 }
      [Crit.eqInt "ANO_EMISSAO" 2025, Crit.text "UF" "BA"] (by decide)⟩

/-- Claim C9: once the cache is populated by a first successful load, every
subsequent `load_dataset` call returns the cached table and leaves the
cache unchanged, regardless of the path it is given and without performing
any read (the result does not depend on the read function at all). -/
theorem load_dataset_cached (read1 read2 : String → Table) (p1 p2 : String) (df : Table) :
    load_dataset read2 (load_dataset read1 none p1).2 p2 = load_dataset read1 none p1
    ∧ load_dataset read2 (some df) p2 = (df, some df) :=
  ⟨rfl, rfl⟩

theorem applyCrits_optText_noop (f df : Table) (c : String) (v : Option String)
    (hc : f.cols = df.cols) (h : c.pyUpper ∉ df.cols) :
    applyCrits f (optTextCrits c v) = f :=
  applyCrits_optText_absent f c v (by rw [hc]; exact h)

/-- Claim C7: a textual criterion whose column is absent from the table is
a no-op — for each of the nine textual criteria, supplying any value gives
the same query result as omitting the criterion, with no error. -/
theorem consultar_unknown_filter_column_noop (df : Table) (p : Params) (v : String) :
    ("UF" ∉ df.cols →
      consultar_portes df { p with uf := some v }
        = consultar_portes df { p with uf := none })
    ∧ ("MUNICIPIO" ∉ df.cols →
      consultar_portes df { p with municipio := some v }
        = consultar_portes df { p with municipio := none })
    ∧ ("SEXO" ∉ df.cols →
      consultar_portes df { p with sexo := some v }
        = consultar_portes df { p with sexo := none })
    ∧ ("ESPECIE_ARMA" ∉ df.cols →
      consultar_portes df { p with especie_arma := some v }
        = consultar_portes df { p with especie_arma := none })
    ∧ ("MARCA_ARMA" ∉ df.cols →
      consultar_portes df { p with marca_arma := some v }
        = consultar_portes df { p with marca_arma := none })
    ∧ ("CALIBRE_ARMA" ∉ df.cols →
      consultar_portes df { p with calibre_arma := some v }
        = consultar_portes df { p with calibre_arma := none })
    ∧ ("STATUS" ∉ df.cols →
      consultar_portes df { p with status := some v }
        = consultar_portes df { p with status := none })
    ∧ ("TIPO" ∉ df.cols →
      consultar_portes df { p with tipo := some v }
        = consultar_portes df { p with tipo := none })
    ∧ ("ABRANGENCIA" ∉ df.cols →
      consultar_portes df { p with abrangencia := some v }
        = consultar_portes df { p with abrangencia := none }) := by
  refine ⟨?_, ?_, ?_, ?_, ?_, ?_, ?_, ?_, ?_⟩ <;> intro habs <;>
    refine consultar_eq_of_filtered_eq df _ _ ?_ rfl rfl <;>
    rw [filteredTable_eq_applyCrits, filteredTable_eq_applyCrits] <;>
    simp only [critsOf, applyCrits_append]
  · rw [applyCrits_optText_noop _ df "UF" _ (by simp only [applyCrits_cols]) habs]
    rfl
  · rw [applyCrits_optText_noop _ df "MUNICIPIO" _ (by simp only [applyCrits_cols]) habs]
    rfl
  · rw [applyCrits_optText_noop _ df "SEXO" _ (by simp only [applyCrits_cols]) habs]
    rfl
  · rw [applyCrits_optText_noop _ df "ESPECIE_ARMA" _ (by simp only [applyCrits_cols]) habs]
    rfl
  · rw [applyCrits_optText_noop _ df "MARCA_ARMA" _ (by simp only [applyCrits_cols]) habs]
    rfl
  · rw [applyCrits_optText_noop _ df "CALIBRE_ARMA" _ (by simp only [applyCrits_cols]) habs]
    rfl
  · rw [applyCrits_optText_noop _ df "STATUS" _ (by simp only [applyCrits_cols]) habs]
    rfl
  · rw [applyCrits_optText_noop _ df "TIPO" _ (by simp only [applyCrits_cols]) habs]
    rfl
  · rw [applyCrits_optText_noop _ df "ABRANGENCIA" _ (by simp only [applyCrits_cols]) habs]
    rfl

/-- Concrete instance of C7: `tabelaExemplo` has no CALIBRE_ARMA column,
so a caliber criterion leaves the result unchanged. -/
theorem consultar_unknown_filter_column_noop_witness :
    "CALIBRE_ARMA" ∉ tabelaExemplo.cols
    ∧ consultar_portes tabelaExemplo { uf := some "BA", calibre_arma := some ".380" }
        = consultar_portes tabelaExemplo { uf := some "BA", calibre_arma := none } := by
  refine ⟨by decide, ?_⟩
  exact (consultar_unknown_filter_column_noop tabelaExemplo
    { uf := some "BA" } ".380").2.2.2.2.2.1 (by decide)

/-- Claim C10: supplying the empty string for any of the nine textual
criteria is the same as omitting the criterion — Python's `if crit:` guard
treats the empty string as falsy, so no filtering happens. -/
theorem consultar_empty_string_noop (df : Table) (p : Params) :
    consultar_portes df { p with uf := some "" }
      = consultar_portes df { p with uf := none }
    ∧ consultar_portes df { p with municipio := some "" }
      = consultar_portes df { p with municipio := none }
    ∧ consultar_portes df { p with sexo := some "" }
      = consultar_portes df { p with sexo := none }
    ∧ consultar_portes df { p with especie_arma := some "" }
      = consultar_portes df { p with especie_arma := none }
    ∧ consultar_portes df { p with marca_arma := some "" }
      = consultar_portes df { p with marca_arma := none }
    ∧ consultar_portes df { p with calibre_arma := some "" }
      = consultar_portes df { p with calibre_arma := none }
    ∧ consultar_portes df { p with status := some "" }
      = consultar_portes df { p with status := none }
    ∧ consultar_portes df { p with tipo := some "" }
      = consultar_portes df { p with tipo := none }
    ∧ consultar_portes df { p with abrangencia := some "" }
      = consultar_portes df { p with abrangencia := none } :=
  ⟨rfl, rfl, rfl, rfl, rfl, rfl, rfl, rfl, rfl⟩
